import Mathlib

/-!
Verification of the streaming-protocol client in `src/client/client.py`
(class `AgentClient`): the stream line decoder `_parse_stream_line`, the
synchronous and asynchronous stream loops (`stream`, `astream`), and the
agent-selection operation `update_agent`.

The embedding is shallow: Python functions become Lean functions over an
explicit state, the network is an explicit parameter holding the outcome of
the one HTTP exchange an operation performs, and Python exceptions become
`Except` values.  The decoder calls the Python standard library's
`json.loads`; that call is modelled below by `jsonLoads`, a fuel-based
recursive-descent scanner following CPython's `json/decoder.py` and
`json/scanner.py` (the pure-Python scanner): same dispatch order, same
whitespace handling, and the same rendered error messages
("Expecting value: line L column C (char N)" and so on), since the decoder
embeds `str(e)` of the raised `JSONDecodeError` into the error event it
returns.
-/

namespace AgentClientSpec

/-- A JSON value as produced by `json.loads`: Python `None`, `bool`, `int`
or `float` (kept as the matched lexeme plus a float flag, since no code
under verification computes with the numeric value), `str`, `list`, `dict`.
Object fields keep Python dict semantics: unique keys, insertion order,
later duplicate keys overwrite the value in place. -/
inductive Json where
  | null : Json
  | bool (b : Bool) : Json
  | num (lexeme : String) (isFloat : Bool) : Json
  | str (s : String) : Json
  | arr (elems : List Json) : Json
  | obj (fields : List (String × Json)) : Json

/-- Python `type(v).__name__` for a decoded JSON value, as it appears in
`AttributeError` messages. -/
def pyTypeName : Json → String
  | .null => "NoneType"
  | .bool _ => "bool"
  | .num _ isFloat => if isFloat then "float" else "int"
  | .str _ => "str"
  | .arr _ => "list"
  | .obj _ => "dict"

/-- Whether a decoded value is a Python dict. -/
def isObj : Json → Bool
  | .obj _ => true
  | _ => false

/-- Python `d.get(k)`: the value under `k`, or nothing when absent.  Fields
built by `dictInsert` have unique keys, so first match suffices. -/
def jsonGet (fields : List (String × Json)) (k : String) : Option Json :=
  (fields.find? (fun p => p.1 == k)).map (fun p => p.2)

/-- Python `d.get(k, default)`: the default is used only when the key is
absent; a key present with value `None` yields `None`. -/
def jsonGetD (fields : List (String × Json)) (k : String) (d : Json) : Json :=
  match jsonGet fields k with
  | some v => v
  | none => d

/-- Assignment `d[k] = v` while building a dict from parsed pairs: a
repeated key keeps its position but takes the new value, matching
`dict(pairs)` in CPython. -/
def dictInsert : List (String × Json) → String → Json → List (String × Json)
  | [], k, v => [(k, v)]
  | (k', v') :: rest, k, v =>
      if k' == k then (k', v) :: rest else (k', v') :: dictInsert rest k v

/-- Python truthiness of a decoded JSON value (`if parsed:`).  A number is
falsy when its mantissa digits are all zero; `NaN` and the infinities are
truthy.  (Float underflow to `0.0` of a nonzero mantissa is not modelled;
the stream decoder only ever hands dicts to this test.) -/
def jsonTruthy : Json → Bool
  | .null => false
  | .bool b => b
  | .num lexeme _ =>
      lexeme == "NaN" || lexeme == "Infinity" || lexeme == "-Infinity" ||
        ((lexeme.data.takeWhile (fun c => c ≠ 'e' ∧ c ≠ 'E')).filter Char.isDigit).any
          (fun c => c ≠ '0')
  | .str s => !s.isEmpty
  | .arr l => !l.isEmpty
  | .obj fs => !fs.isEmpty

/-- A `json.JSONDecodeError` before rendering: the short message and the
character position in the document. -/
structure JErr where
  msg : String
  pos : Nat
deriving DecidableEq

/-- Count of newlines before `pos` plus one: the `lineno` of
`JSONDecodeError`. -/
def jsonLineno (doc : List Char) (pos : Nat) : Nat :=
  (doc.take pos).count '\n' + 1

/-- Column of `pos`, one-based from the last newline: the `colno` of
`JSONDecodeError` (`pos - doc.rfind('\n', 0, pos)`). -/
def jsonColno (doc : List Char) (pos : Nat) : Nat :=
  ((doc.take pos).reverse.takeWhile (fun c => c ≠ '\n')).length + 1

/-- Rendering `str(e)` of a `JSONDecodeError`:
`"{msg}: line {lineno} column {colno} (char {pos})"`. -/
def jsonErrStr (doc : String) (e : JErr) : String :=
  e.msg ++ ": line " ++ toString (jsonLineno doc.data e.pos) ++ " column " ++
    toString (jsonColno doc.data e.pos) ++ " (char " ++ toString e.pos ++ ")"

/-- JSON whitespace, the class of CPython's `WHITESPACE` regex `[ \t\n\r]*`. -/
def isJsonWs (c : Char) : Bool :=
  c == ' ' || c == '\t' || c == '\n' || c == '\r'

/-- Position after skipping JSON whitespace from `i` (the `_w(s, i).end()`
idiom of `json/decoder.py`). -/
def skipWs (s : List Char) (i : Nat) : Nat :=
  i + ((s.drop i).takeWhile isJsonWs).length

/-- Python `s[i:i+len(lit)] == lit`. -/
def litAt (s : List Char) (i : Nat) (lit : List Char) : Bool :=
  (s.drop i).take lit.length == lit

/-- Value of one hexadecimal digit. -/
def hexVal (c : Char) : Option Nat :=
  if '0' ≤ c ∧ c ≤ '9' then some (c.toNat - '0'.toNat)
  else if 'a' ≤ c ∧ c ≤ 'f' then some (c.toNat - 'a'.toNat + 10)
  else if 'A' ≤ c ∧ c ≤ 'F' then some (c.toNat - 'A'.toNat + 10)
  else none

/-- CPython `_decode_uXXXX(s, pos)` with `pos` the index of the `u`: reads
the four characters after `pos` as hexadecimal, else fails with
`"Invalid \uXXXX escape"` at `pos`.  The exotic forms `int(esc, 16)` also
accepts (a sign, inner underscores) are not modelled. -/
def decodeUXXXX (s : List Char) (pos : Nat) : Except JErr Nat :=
  match s.get? (pos + 1), s.get? (pos + 2), s.get? (pos + 3), s.get? (pos + 4) with
  | some c1, some c2, some c3, some c4 =>
      match hexVal c1, hexVal c2, hexVal c3, hexVal c4 with
      | some h1, some h2, some h3, some h4 =>
          .ok (((h1 * 16 + h2) * 16 + h3) * 16 + h4)
      | _, _, _, _ => .error ⟨"Invalid \\uXXXX escape", pos⟩
  | _, _, _, _ => .error ⟨"Invalid \\uXXXX escape", pos⟩

/-- Python `repr` of a one-character string, for the ASCII range used in
scanner error messages. -/
def pyCharRepr (c : Char) : String :=
  if c = '\t' then "'\\t'"
  else if c = '\n' then "'\\n'"
  else if c = '\r' then "'\\r'"
  else if c.toNat < 0x20 ∨ c.toNat = 0x7f then
    let hi := Nat.digitChar (c.toNat / 16)
    let lo := Nat.digitChar (c.toNat % 16)
    "'\\x" ++ ⟨[hi, lo]⟩ ++ "'"
  else if c = '\'' then "\"'\""
  else if c = '\\' then "'\\\\'"
  else "'" ++ ⟨[c]⟩ ++ "'"

/-- The value of the unescaped character for CPython's `BACKSLASH` table. -/
def backslashChar (c : Char) : Option Char :=
  if c = '"' then some '"'
  else if c = '\\' then some '\\'
  else if c = '/' then some '/'
  else if c = 'b' then some (Char.ofNat 8)
  else if c = 'f' then some (Char.ofNat 12)
  else if c = 'n' then some '\n'
  else if c = 'r' then some '\r'
  else if c = 't' then some '\t'
  else none

/-- CPython `py_scanstring(s, i, strict=True)` with `beg` the index of the
opening quote and `i` just past it: accumulates characters until the
closing quote, handling escapes, rejecting raw control characters, and
failing with `"Unterminated string starting at"` `beg` when the text ends
first.  A combined surrogate pair outside Lean's `Char` range degrades via
`Char.ofNat`; no input used in a theorem exercises that corner. -/
def scanStringLoop (s : List Char) (beg : Nat) :
    Nat → Nat → List Char → Except JErr (String × Nat)
  | 0, _, _ => .error ⟨"scanner fuel exhausted", 0⟩
  | fuel + 1, i, acc =>
    match s.get? i with
    | none => .error ⟨"Unterminated string starting at", beg⟩
    | some c =>
      if c = '"' then .ok (⟨acc.reverse⟩, i + 1)
      else if c = '\\' then
        match s.get? (i + 1) with
        | none => .error ⟨"Unterminated string starting at", beg⟩
        | some esc =>
          if esc = 'u' then
            match decodeUXXXX s (i + 1) with
            | .error e => .error e
            | .ok uni =>
              if 0xd800 ≤ uni ∧ uni ≤ 0xdbff ∧ litAt s (i + 6) ['\\', 'u'] then
                match decodeUXXXX s (i + 7) with
                | .error e => .error e
                | .ok uni2 =>
                  if 0xdc00 ≤ uni2 ∧ uni2 ≤ 0xdfff then
                    let combined := 0x10000 + ((uni - 0xd800) * 1024 + (uni2 - 0xdc00))
                    scanStringLoop s beg fuel (i + 12) (Char.ofNat combined :: acc)
                  else scanStringLoop s beg fuel (i + 6) (Char.ofNat uni :: acc)
              else scanStringLoop s beg fuel (i + 6) (Char.ofNat uni :: acc)
          else
            match backslashChar esc with
            | some ch => scanStringLoop s beg fuel (i + 2) (ch :: acc)
            | none => .error ⟨"Invalid \\escape: " ++ pyCharRepr esc, i + 1⟩
      else if c.toNat < 0x20 then
        .error ⟨"Invalid control character " ++ pyCharRepr c ++ " at", i + 1⟩
      else scanStringLoop s beg fuel (i + 1) (c :: acc)

/-- The `NUMBER_RE` regex of `json/scanner.py`,
`(-?(?:0|[1-9]\d+|[1-9]))(\.\d+)?([eE][-+]?\d+)?` matched at `i`: the
lexeme, whether a fraction or exponent made it a float, and the position
after the match. -/
def scanNumber (s : List Char) (i : Nat) : Option (String × Bool × Nat) :=
  let (sign, i1) := if s.get? i = some '-' then (['-'], i + 1) else (([] : List Char), i)
  match s.get? i1 with
  | none => none
  | some c =>
    if ¬ c.isDigit then none
    else
      let intPart : List Char := if c = '0' then ['0'] else (s.drop i1).takeWhile Char.isDigit
      let i2 := i1 + intPart.length
      let fracDigits := (s.drop (i2 + 1)).takeWhile Char.isDigit
      let (fracPart, i3) :=
        if s.get? i2 = some '.' ∧ fracDigits.length > 0 then
          ('.' :: fracDigits, i2 + 1 + fracDigits.length)
        else (([] : List Char), i2)
      let (expPart, i4) :=
        match s.get? i3 with
        | some e =>
          if e = 'e' ∨ e = 'E' then
            let (esign, j) :=
              match s.get? (i3 + 1) with
              | some '+' => (['+'], i3 + 2)
              | some '-' => (['-'], i3 + 2)
              | _ => (([] : List Char), i3 + 1)
            let expDigits := (s.drop j).takeWhile Char.isDigit
            if expDigits.length > 0 then (e :: (esign ++ expDigits), j + expDigits.length)
            else (([] : List Char), i3)
          else (([] : List Char), i3)
        | none => (([] : List Char), i3)
      some (⟨sign ++ intPart ++ fracPart ++ expPart⟩,
            ¬ fracPart.isEmpty ∨ ¬ expPart.isEmpty, i4)

/-- One pending production of the recursive-descent scan, so the whole
scanner is a single fuel-structural function that the kernel can unfold:
a value at `i`; the tail of an array after `[` (ready to scan the next
element at `i`); the tail of an object positioned just past the opening
quote of the next key. -/
inductive ScanTask where
  | value (i : Nat)
  | arrTail (i : Nat) (acc : List Json)
  | objKey (i : Nat) (acc : List (String × Json))

/-- CPython `_scan_once` / `JSONArray` / `JSONObject` fused into one fueled
function.  Dispatch order, whitespace skips and error positions follow
`json/scanner.py` and `json/decoder.py`: a fallthrough at `i` is
`"Expecting value"` at `i` (the `StopIteration` every caller re-raises as
such), array and object delimiters fail with `"Expecting ',' delimiter"`
at the offending position, object keys with
`"Expecting property name enclosed in double quotes"`, and a missing
colon with `"Expecting ':' delimiter"`. -/
def scanF (s : List Char) : Nat → ScanTask → Except JErr (Json × Nat)
  | 0, _ => .error ⟨"scanner fuel exhausted", 0⟩
  | fuel + 1, .value i =>
    match s.get? i with
    | none => .error ⟨"Expecting value", i⟩
    | some c =>
      if c = '"' then
        match scanStringLoop s i (s.length + 8) (i + 1) [] with
        | .error e => .error e
        | .ok (str, p) => .ok (.str str, p)
      else if c = '{' then
        let j := skipWs s (i + 1)
        match s.get? j with
        | some '}' => .ok (.obj [], j + 1)
        | some '"' => scanF s fuel (.objKey (j + 1) [])
        | _ => .error ⟨"Expecting property name enclosed in double quotes", j⟩
      else if c = '[' then
        let j := skipWs s (i + 1)
        match s.get? j with
        | some ']' => .ok (.arr [], j + 1)
        | _ => scanF s fuel (.arrTail j [])
      else if litAt s i "null".data then .ok (.null, i + 4)
      else if litAt s i "true".data then .ok (.bool true, i + 4)
      else if litAt s i "false".data then .ok (.bool false, i + 5)
      else
        match scanNumber s i with
        | some (lexeme, isFloat, p) => .ok (.num lexeme isFloat, p)
        | none =>
          if c = 'N' ∧ litAt s i "NaN".data then .ok (.num "NaN" true, i + 3)
          else if c = 'I' ∧ litAt s i "Infinity".data then .ok (.num "Infinity" true, i + 8)
          else if c = '-' ∧ litAt s i "-Infinity".data then .ok (.num "-Infinity" true, i + 9)
          else .error ⟨"Expecting value", i⟩
  | fuel + 1, .arrTail i acc =>
    match scanF s fuel (.value i) with
    | .error e => .error e
    | .ok (v, p) =>
      let q := skipWs s p
      match s.get? q with
      | some ']' => .ok (.arr (acc ++ [v]), q + 1)
      | some ',' => scanF s fuel (.arrTail (skipWs s (q + 1)) (acc ++ [v]))
      | _ => .error ⟨"Expecting ',' delimiter", q⟩
  | fuel + 1, .objKey i acc =>
    match scanStringLoop s (i - 1) (s.length + 8) i [] with
    | .error e => .error e
    | .ok (key, p1) =>
      let p2 := skipWs s p1
      if s.get? p2 ≠ some ':' then .error ⟨"Expecting ':' delimiter", p2⟩
      else
        match scanF s fuel (.value (skipWs s (p2 + 1))) with
        | .error e => .error e
        | .ok (v, p4) =>
          let acc2 := dictInsert acc key v
          let q := skipWs s p4
          match s.get? q with
          | some '}' => .ok (.obj acc2, q + 1)
          | some ',' =>
            let r := skipWs s (q + 1)
            match s.get? r with
            | some '"' => scanF s fuel (.objKey (r + 1) acc2)
            | _ => .error ⟨"Expecting property name enclosed in double quotes", r⟩
          | _ => .error ⟨"Expecting ',' delimiter", q⟩

/-- Python `json.loads(doc)`: skip leading whitespace, scan one value,
skip trailing whitespace, and fail with `"Extra data"` if text remains.
The fuel is generous for the recursion depth and loop count any document
of this length can need. -/
def jsonLoads (doc : String) : Except JErr Json :=
  let s := doc.data
  match scanF s (4 * s.length + 16) (.value (skipWs s 0)) with
  | .error e => .error e
  | .ok (v, p) =>
    let q := skipWs s p
    if q = s.length then .ok v else .error ⟨"Extra data", q⟩

/-! The stream line decoder, `AgentClient._parse_stream_line`
(src/client/client.py lines 170-204). -/

/-- The characters Python `str.strip()` removes. -/
def isPyWs (c : Char) : Bool :=
  c == ' ' || c == '\t' || c == '\n' || c == '\r' || c == '\x0b' || c == '\x0c'

/-- Python `line.strip()`. -/
def pyStrip (line : String) : String :=
  ⟨((line.data.dropWhile isPyWs).reverse.dropWhile isPyWs).reverse⟩

/-- Lines 176-179 of the decoder: `data = line[6:]` when
`line.startswith("data: ")`, else `data = line`.  Note there is no
trimming: the line is used exactly as received. -/
def stripDataPrefix (line : String) : String :=
  if "data: ".data.isPrefixOf line.data then ⟨line.data.drop 6⟩ else line

/-- An exception escaping the body of the decoder's `try`, carrying the
Python `str(e)` text: either a `json.JSONDecodeError` from `json.loads`
or the `AttributeError` from calling `.get` on a non-dict. -/
inductive PyExc where
  | jsonDecodeError (msg : String)
  | attributeError (msg : String)

/-- Whether `parsed.get("type") == "error")` holds for a parsed dict. -/
def typeIsError (fields : List (String × Json)) : Bool :=
  match jsonGet fields "type" with
  | some (.str s) => s == "error"
  | _ => false

/-- Lines 181-191 of the decoder applied to the stripped payload:
`json.loads`, then the `type == "error"` rebuild or the passthrough, with
each Python exception made explicit.  A non-dict parse result raises
`AttributeError` at `parsed.get("type")`. -/
def decodeData (data : String) : Except PyExc (Option Json) :=
  match jsonLoads data with
  | .error e => .error (.jsonDecodeError (jsonErrStr data e))
  | .ok (.obj fields) =>
    if typeIsError fields then
      .ok (some (.obj [("type", .str "error"),
                       ("content", jsonGetD fields "content" (.str "Unknown error"))]))
    else .ok (some (.obj fields))
  | .ok v =>
    .error (.attributeError ("'" ++ pyTypeName v ++ "' object has no attribute 'get'"))

/-- The body of the decoder's `try`: the `not line or line == "[DONE]"`
early return, then prefix stripping and payload decoding. -/
def parseStreamLineBody (line : String) : Except PyExc (Option Json) :=
  if line = "" ∨ line = "[DONE]" then .ok none
  else decodeData (stripDataPrefix line)

/-- An error-kind stream event `\x7b"type": "error", "content": msg\x7d`
with a string content, as built by the decoder's exception handlers. -/
def errorEvent (msg : String) : Json :=
  .obj [("type", .str "error"), ("content", .str msg)]

/-- The decoder's two exception handlers (lines 193-204): a
`JSONDecodeError` becomes an error event `"Failed to parse response: "`
plus `str(e)`; any other exception becomes `"Unexpected error: "` plus
`str(e)`. -/
def handleExc : Except PyExc (Option Json) → Option Json
  | .ok r => r
  | .error (.jsonDecodeError m) => some (errorEvent ("Failed to parse response: " ++ m))
  | .error (.attributeError m) => some (errorEvent ("Unexpected error: " ++ m))

/-- `AgentClient._parse_stream_line`: the guarded body with both handlers
installed.  Returns `none` exactly where Python returns `None`. -/
def parseStreamLine (line : String) : Option Json :=
  handleExc (parseStreamLineBody line)

/-! The agent session state and `update_agent` / `retrieve_info`
(src/client/client.py lines 65-103). -/

/-- One entry of `ServiceMetadata.agents`; only the `key` field is read by
the client code under verification. -/
structure AgentInfo where
  key : String
deriving DecidableEq

/-- The `ServiceMetadata` schema as the client uses it: the agent list and
the default agent key. -/
structure ServiceMetadata where
  agents : List AgentInfo
  defaultAgent : String
deriving DecidableEq

/-- The mutable fields of `AgentClient` that `update_agent` and
`retrieve_info` read or write: `self.info` and `self.agent`. -/
structure SessionState where
  info : Option ServiceMetadata
  agent : Option String
deriving DecidableEq

/-- The single client-visible error type `AgentClientError`, carrying its
message. -/
structure AgentClientError where
  msg : String
deriving DecidableEq

/-- The keys of the available agents, `[a.key for a in self.info.agents]`. -/
def agentKeys (md : ServiceMetadata) : List String :=
  md.agents.map (fun a => a.key)

/-- Python truthiness of `self.agent` used in `not self.agent`: `None` and
the empty string are falsy. -/
def agentFalsy : Option String → Bool
  | none => true
  | some a => a == ""

/-- `AgentClient.retrieve_info`, with the network exchange (GET `/info`,
status check, schema validation) summarised by `response`: its error case
is the already-normalized `AgentClientError` the method raises, its ok
case the validated metadata.  On success the method stores the metadata
and falls back to the default agent when no agent is selected (Python
truthiness) or the selection is not among the returned keys. -/
def retrieveInfo (response : Except AgentClientError ServiceMetadata)
    (s : SessionState) : Except AgentClientError (ServiceMetadata × SessionState) :=
  match response with
  | .error e => .error e
  | .ok md =>
    let fallback :=
      match s.agent with
      | none => true
      | some a => a == "" || !((agentKeys md).contains a)
    .ok (md, { info := some md,
               agent := if fallback then some md.defaultAgent else s.agent })

/-- `AgentClient.update_agent(agent, verify)`: when verifying, load the
metadata if absent (`fetch` is the outcome `retrieve_info` would see),
then require membership of `agent` in the available keys, failing with
the message built at lines 100-102 — the keys joined by `", "` in
metadata order.  Finally set `self.agent`. -/
def updateAgent (fetch : Except AgentClientError ServiceMetadata)
    (s : SessionState) (agent : String) (verify : Bool) :
    Except AgentClientError SessionState :=
  if verify then
    match (match s.info with
           | some md => .ok (md, s)
           | none => retrieveInfo fetch s :
           Except AgentClientError (ServiceMetadata × SessionState)) with
    | .error e => .error e
    | .ok (md, s1) =>
      if (agentKeys md).contains agent then .ok { s1 with agent := some agent }
      else .error ⟨"Agent " ++ agent ++ " not found in available agents: " ++
                     String.intercalate ", " (agentKeys md)⟩
  else .ok { s with agent := some agent }

/-! The streaming loops, `AgentClient.stream` (lines 238-254) and
`AgentClient.astream` (lines 256-291).  The HTTP exchange up to the start
of line iteration is summarised by `StreamResponse`: `httpError` is an
`httpx.HTTPError` (connection failure, or non-2xx via
`raise_for_status()`) with its `str(e)`, raised before any line is
produced; `ok` carries the body's lines. -/

/-- Outcome of opening the streaming response. -/
inductive StreamResponse where
  | httpError (msg : String)
  | ok (lines : List String)

/-- The line loop of the synchronous `stream`: skip lines blank after
`strip()`, decode the rest, stop on a `None` decode, yield everything
else. -/
def streamEvents : List String → List Json
  | [] => []
  | line :: rest =>
    if pyStrip line = "" then streamEvents rest
    else
      match parseStreamLine line with
      | none => []
      | some ev => ev :: streamEvents rest

/-- `AgentClient.stream` from the response on: an `httpx.HTTPError` is
caught and re-raised as `AgentClientError("Error: " + str(e))`; otherwise
the line loop runs.  The generator's event sequence is the returned
list. -/
def streamSync : StreamResponse → Except AgentClientError (List Json)
  | .httpError e => .error ⟨"Error: " ++ e⟩
  | .ok lines => .ok (streamEvents lines)

/-- Python `parsed["type"]` on a decoded value: the value under the key,
`KeyError` (whose `str` is the `repr` of the key) when absent, and a
`TypeError` on a non-dict — the latter unreachable from
`parseStreamLine`, which only ever returns dicts. -/
def pyGetItem (v : Json) (k : String) : Except String Json :=
  match v with
  | .obj fs =>
    match jsonGet fs k with
    | some x => .ok x
    | none => .error ("'" ++ k ++ "'")
  | _ => .error "json value is not subscriptable"

/-- The line loop of `astream`: skip blank lines, decode, test `if parsed:`
by Python truthiness (both `None` and an empty dict are skipped, and
nothing stops the loop — `[DONE]` is skipped too), then evaluate
`parsed["type"]` whose `KeyError` on a type-less dict escapes the loop to
the outer `except Exception`, which yields one final
`"Stream error: ..."` event and ends the generator; both branches of the
`if` yield the parsed event. -/
def astreamEvents : List String → List Json
  | [] => []
  | line :: rest =>
    if pyStrip line = "" then astreamEvents rest
    else
      match parseStreamLine line with
      | none => astreamEvents rest
      | some v =>
        if jsonTruthy v then
          match pyGetItem v "type" with
          | .ok _ => v :: astreamEvents rest
          | .error emsg => [errorEvent ("Stream error: " ++ emsg)]
        else astreamEvents rest

/-- `AgentClient.astream` from the response on: an `httpx.HTTPError` —
including any failure before the first line — is caught by the generator
itself, which yields a single in-band `"Connection error: ..."` event and
raises nothing; otherwise the line loop runs. -/
def streamAsync : StreamResponse → List Json
  | .httpError e => [errorEvent ("Connection error: " ++ e)]
  | .ok lines => astreamEvents lines

/-! Helper lemmas shared by several claim proofs. -/

/-- Once the decoder reaches the payload stage, every outcome — decode
failure, non-dict payload, error payload, passthrough — is `some` event:
only the guard line of the decoder returns `none`. -/
theorem handleExcDecode_ne_none (data : String) :
    handleExc (decodeData data) ≠ none := by
  unfold decodeData
  rcases hj : jsonLoads data with e | v
  · simp [handleExc]
  · cases v with
    | obj fields =>
      by_cases ht : typeIsError fields <;> simp [ht, handleExc]
    | null => simp [handleExc]
    | bool b => simp [handleExc]
    | num lexeme isFloat => simp [handleExc]
    | str s => simp [handleExc]
    | arr elems => simp [handleExc]

/-- The decoder returns `None` exactly on the empty line and on the
termination token. -/
theorem parseStreamLine_eq_none_iff (line : String) :
    parseStreamLine line = none ↔ (line = "" ∨ line = "[DONE]") := by
  unfold parseStreamLine parseStreamLineBody
  by_cases h : line = "" ∨ line = "[DONE]"
  · simp [h, handleExc]
  · simp [h, handleExcDecode_ne_none]

/-- Every value the decoder returns is a dict: the passthrough branch is
reached only after `parsed.get` succeeded, and the handlers build error
dicts. -/
theorem parseStreamLine_some_obj (line : String) (v : Json)
    (h : parseStreamLine line = some v) : isObj v = true := by
  unfold parseStreamLine parseStreamLineBody at h
  by_cases hg : line = "" ∨ line = "[DONE]"
  · simp [hg, handleExc] at h
  · rw [if_neg hg] at h
    unfold decodeData at h
    rcases hj : jsonLoads (stripDataPrefix line) with e | w <;> rw [hj] at h
    · cases e' : (PyExc.jsonDecodeError (jsonErrStr (stripDataPrefix line) e)) <;>
        simp [handleExc] at h <;> simp [← h, errorEvent, isObj]
    · cases w with
      | obj fields =>
        by_cases ht : typeIsError fields <;> simp [ht, handleExc] at h <;>
          simp [← h, isObj]
      | null => simp [handleExc] at h; simp [← h, errorEvent, isObj]
      | bool b => simp [handleExc] at h; simp [← h, errorEvent, isObj]
      | num lexeme isFloat => simp [handleExc] at h; simp [← h, errorEvent, isObj]
      | str s => simp [handleExc] at h; simp [← h, errorEvent, isObj]
      | arr elems => simp [handleExc] at h; simp [← h, errorEvent, isObj]

/-! Claim C1. -/

/-- C1, counterexample: in the asynchronous variant `astream`, an
HTTP-level failure before the first line (connection failure or non-2xx)
is not raised to the caller — the generator catches it and yields it as an
in-band error-kind event of the event sequence, contradicting the claim
that in both variants it is raised as a ClientError and never yielded. -/
theorem c1_counterexample_async_yields_http_failure :
    streamAsync (.httpError "boom") = [errorEvent "Connection error: boom"] := rfl

/-- C1, amended: an HTTP-level failure before the first response line is
raised as an `AgentClientError` with message `"Error: " ++ str(e)` in the
synchronous variant only; the asynchronous variant raises nothing and
instead yields a single in-band error-kind event with content
`"Connection error: " ++ str(e)`, which ends the sequence. -/
theorem c1_http_failure_sync_raises_async_yields (e : String) :
    streamSync (.httpError e) = .error ⟨"Error: " ++ e⟩ ∧
      streamAsync (.httpError e) = [errorEvent ("Connection error: " ++ e)] :=
  ⟨rfl, rfl⟩

/-! Claim C2. -/

set_option maxRecDepth 4000 in
/-- C2, counterexample: for the unparseable line `"data: not-json"` the
decoder produces an error event whose content is built from `str(e)` of
the `JSONDecodeError` — `"Expecting value: line 1 column 1 (char 0)"` —
which does not include the offending raw text `"not-json"` (the raw text
goes only to the log), contradicting the claim that the content includes
the offending raw text. -/
theorem c2_counterexample_content_lacks_raw_text :
    parseStreamLine "data: not-json" =
      some (errorEvent
        "Failed to parse response: Expecting value: line 1 column 1 (char 0)") ∧
      ¬ ("not-json".data <:+:
          "Failed to parse response: Expecting value: line 1 column 1 (char 0)".data) :=
  ⟨rfl, by decide⟩

/-- C2, amended: for every line whose stripped payload is not parseable as
JSON, the decoder returns an error-kind StreamEvent whose content is
`"Failed to parse response: "` followed by the JSON decoder's rendered
error message (not the raw text, which is only logged); the result is
non-terminal and the synchronous caller keeps reading subsequent lines. -/
theorem c2_parse_failure_error_event_nonterminal (line : String) (e : JErr)
    (rest : List String) (h1 : line ≠ "") (h2 : line ≠ "[DONE]")
    (h3 : pyStrip line ≠ "")
    (hj : jsonLoads (stripDataPrefix line) = .error e) :
    parseStreamLine line =
      some (errorEvent
        ("Failed to parse response: " ++ jsonErrStr (stripDataPrefix line) e)) ∧
      streamEvents (line :: rest) =
        errorEvent ("Failed to parse response: " ++ jsonErrStr (stripDataPrefix line) e) ::
          streamEvents rest := by
  have hev : parseStreamLine line =
      some (errorEvent
        ("Failed to parse response: " ++ jsonErrStr (stripDataPrefix line) e)) := by
    unfold parseStreamLine parseStreamLineBody
    rw [if_neg (by simp [h1, h2])]
    unfold decodeData
    rw [hj]
    rfl
  refine ⟨hev, ?_⟩
  simp only [streamEvents]
  rw [if_neg h3, hev]

/-- C2, witness for the amended theorem at the spec's own example input. -/
theorem c2_witness :
    parseStreamLine "data: not-json" =
      some (errorEvent
        ("Failed to parse response: " ++
          jsonErrStr (stripDataPrefix "data: not-json") ⟨"Expecting value", 0⟩)) ∧
      streamEvents ["data: not-json", "[DONE]"] =
        errorEvent ("Failed to parse response: " ++
            jsonErrStr (stripDataPrefix "data: not-json") ⟨"Expecting value", 0⟩) ::
          streamEvents ["[DONE]"] :=
  c2_parse_failure_error_event_nonterminal "data: not-json" ⟨"Expecting value", 0⟩
    ["[DONE]"] (by decide) (by decide) (by decide) rfl

/-! Claim C3. -/

/-- C3, counterexample: the decoder does not trim its input; a line of
three spaces is neither empty (so the guard does not return `None`) nor
parseable JSON, so `decodeLine("   ")` produces an error event rather
than no event, contradicting the claim that the line is first trimmed and
yields no event. -/
theorem c3_counterexample_whitespace_line_gives_error_event :
    parseStreamLine "   " =
      some (errorEvent
        "Failed to parse response: Expecting value: line 1 column 4 (char 3)") ∧
      parseStreamLine "   " ≠ none :=
  ⟨rfl, fun h => absurd (by rw [parseStreamLine_eq_none_iff] at h; exact h) (by decide)⟩

/-- C3, amended: the decoder does not trim; `decodeLine("")` alone yields
no event, while a whitespace-only nonempty line would decode to an error
event.  Both stream loops, however, test `line.strip()` before invoking
the decoder, so every line that is blank after stripping — including `""`
and `"   "` — is skipped silently at the loop level and does not
terminate the stream. -/
theorem c3_blank_lines_skipped_by_callers :
    parseStreamLine "" = none ∧
      ∀ (line : String) (rest : List String), pyStrip line = "" →
        streamEvents (line :: rest) = streamEvents rest ∧
          astreamEvents (line :: rest) = astreamEvents rest := by
  refine ⟨rfl, fun line rest h => ⟨?_, ?_⟩⟩
  · simp only [streamEvents]
    rw [if_pos h]
  · simp only [astreamEvents]
    rw [if_pos h]

/-- C3, witness for the amended theorem at the spec's whitespace-only
example line. -/
theorem c3_witness :
    streamEvents ["   ", "x"] = streamEvents ["x"] ∧
      astreamEvents ["   ", "x"] = astreamEvents ["x"] :=
  c3_blank_lines_skipped_by_callers.2 "   " ["x"] rfl

/-! Claim C4. -/

/-- C4, counterexample: `update_agent` joins the available keys in the
order they appear in the loaded metadata, without sorting.  With the agent
set given as `["b", "a"]`, asking for `"ghost"` produces the message
`"Agent ghost not found in available agents: b, a"`, which does not
contain the sorted listing `"a, b"` the claim requires. -/
theorem c4_counterexample_keys_not_sorted :
    updateAgent (.ok ⟨[], ""⟩) ⟨some ⟨[⟨"b"⟩, ⟨"a"⟩], "b"⟩, some "b"⟩ "ghost" true =
      .error ⟨"Agent ghost not found in available agents: b, a"⟩ ∧
      ¬ ("a, b".data <:+: "Agent ghost not found in available agents: b, a".data) :=
  ⟨rfl, by decide⟩

/-- C4, amended: for every call to `update_agent` with `verify` and a key
absent from the loaded metadata's agent set, the operation fails with the
message `"Agent {key} not found in available agents: "` followed by the
valid keys comma-joined in metadata order (not sorted) — so the message
names the requested key and lists every valid key. -/
theorem c4_unknown_agent_message (fetch : Except AgentClientError ServiceMetadata)
    (s : SessionState) (md : ServiceMetadata) (key : String)
    (hinfo : s.info = some md) (habs : (agentKeys md).contains key = false) :
    updateAgent fetch s key true =
      .error ⟨"Agent " ++ key ++ " not found in available agents: " ++
        String.intercalate ", " (agentKeys md)⟩ := by
  simp [updateAgent, hinfo, habs]
  simpa using habs

/-- C4, witness for the amended theorem, at the spec's example: requested
key `"ghost"`, agent set `"a"`, `"b"` (in that metadata order); the
message contains both `"ghost"` and `"a, b"`. -/
theorem c4_witness :
    updateAgent (.ok ⟨[], ""⟩) ⟨some ⟨[⟨"a"⟩, ⟨"b"⟩], "a"⟩, some "a"⟩ "ghost" true =
      .error ⟨"Agent " ++ "ghost" ++ " not found in available agents: " ++
        String.intercalate ", " (agentKeys ⟨[⟨"a"⟩, ⟨"b"⟩], "a"⟩)⟩ ∧
      ("ghost".data <:+: "Agent ghost not found in available agents: a, b".data) ∧
      ("a, b".data <:+: "Agent ghost not found in available agents: a, b".data) :=
  ⟨c4_unknown_agent_message (.ok ⟨[], ""⟩) ⟨some ⟨[⟨"a"⟩, ⟨"b"⟩], "a"⟩, some "a"⟩
      ⟨[⟨"a"⟩, ⟨"b"⟩], "a"⟩ "ghost" rfl rfl,
    by decide, by decide⟩

/-! Claim C5. -/

/-- C5: the decoder is total — every exception its body can raise (the
`JSONDecodeError` of `json.loads` as well as the `AttributeError` of
inspecting a non-dict payload) is caught and converted into an error-kind
StreamEvent, never escaping to the caller's read loop; and a non-decode
exception in particular yields the generic `"Unexpected error: "`
message. -/
theorem c5_decoder_catches_every_exception (line : String) (exc : PyExc)
    (h : parseStreamLineBody line = .error exc) :
    (∃ msg, parseStreamLine line = some (errorEvent msg)) ∧
      ∀ m, exc = .attributeError m →
        parseStreamLine line = some (errorEvent ("Unexpected error: " ++ m)) := by
  unfold parseStreamLine
  rw [h]
  cases exc with
  | jsonDecodeError m =>
    exact ⟨⟨"Failed to parse response: " ++ m, rfl⟩, fun m' hm => by cases hm⟩
  | attributeError m =>
    exact ⟨⟨"Unexpected error: " ++ m, rfl⟩, fun m' hm => by cases hm; rfl⟩

/-- C5, witness: the line `"null"` parses to Python `None`, whose `.get`
raises `AttributeError`; the decoder converts it into the generic
unexpected-error event. -/
theorem c5_witness :
    (∃ msg, parseStreamLine "null" = some (errorEvent msg)) ∧
      parseStreamLine "null" =
        some (errorEvent
          ("Unexpected error: " ++ "'NoneType' object has no attribute 'get'")) :=
  ⟨(c5_decoder_catches_every_exception "null"
      (.attributeError "'NoneType' object has no attribute 'get'") rfl).1,
    (c5_decoder_catches_every_exception "null"
      (.attributeError "'NoneType' object has no attribute 'get'") rfl).2
      "'NoneType' object has no attribute 'get'" rfl⟩

/-! Claim C6. -/

/-- C6, counterexample: the decoder's return value carries no secondary
terminal boolean — its shape is a single optional event, and the `None`
returned for the termination token `"[DONE]"` is the very value returned
for the empty line, which the claim says means skip rather than stop; so
`"[DONE]"` is not the only input whose null event a caller could read as
stop, and no `terminal` flag distinguishes the two. -/
theorem c6_counterexample_no_terminal_flag :
    parseStreamLine "[DONE]" = none ∧ parseStreamLine "" = none ∧
      parseStreamLine "[DONE]" = parseStreamLine "" :=
  ⟨rfl, rfl, rfl⟩

/-- C6, amended: `decodeLine("[DONE]")` produces no event, and the return
value itself — `None`, with no secondary boolean — is what the
synchronous caller treats as the end-of-stream signal, stopping at once;
since that caller skips lines blank after stripping before decoding,
`"[DONE]"` is the only line reaching the decoder whose result is `None`,
so for it `None` unambiguously means stop. -/
theorem c6_done_token_terminates_sync_stream :
    parseStreamLine "[DONE]" = none ∧
      (∀ rest, streamEvents ("[DONE]" :: rest) = []) ∧
      ∀ line, pyStrip line ≠ "" → (parseStreamLine line = none ↔ line = "[DONE]") := by
  refine ⟨rfl, fun rest => ?_, fun line h => ?_⟩
  · simp only [streamEvents]
    rw [if_neg (by decide), show parseStreamLine "[DONE]" = none from rfl]
  · rw [parseStreamLine_eq_none_iff]
    constructor
    · rintro (h0 | hd)
      · exact absurd (by rw [h0]; rfl) h
      · exact hd
    · exact fun hd => Or.inr hd

/-- C6, witness: a non-blank line other than the termination token decodes
to an event, not to the terminal `None`. -/
theorem c6_witness :
    streamEvents ["[DONE]", "x"] = [] ∧ ¬ parseStreamLine "x" = none :=
  ⟨c6_done_token_terminates_sync_stream.2.1 ["x"],
    fun hn =>
      absurd ((c6_done_token_terminates_sync_stream.2.2 "x" (by decide)).mp hn)
        (by decide)⟩

/-! Claim C7. -/

/-- C7, counterexample: for a non-blank unprefixed line that is not the
termination token, the decoder does not use the trimmed line as the
payload — it uses the line exactly as received.  For `" not-json"` the
payload keeps its leading space (`stripDataPrefix` differs from the
stripped line), observably: the decode-failure position in the produced
error event is char 1, where trimming first would have reported char 0. -/
theorem c7_counterexample_payload_not_trimmed :
    pyStrip " not-json" ≠ "" ∧ " not-json" ≠ "[DONE]" ∧
      "data: ".data.isPrefixOf " not-json".data = false ∧
      stripDataPrefix " not-json" ≠ pyStrip " not-json" ∧
      parseStreamLine " not-json" =
        some (errorEvent
          "Failed to parse response: Expecting value: line 1 column 2 (char 1)") :=
  ⟨by decide, by decide, by decide, by decide, rfl⟩

/-- C7, amended: a line beginning with `"data: "` has exactly that
6-character prefix stripped before parsing, and a line without the prefix
is passed through whole and untrimmed as the raw JSON payload; every line
past the empty/termination guard is decoded from exactly
`stripDataPrefix line`. -/
theorem c7_prefix_stripping (payload line : String) :
    stripDataPrefix ("data: " ++ payload) = payload ∧
      ("data: ".data.isPrefixOf line.data = false → stripDataPrefix line = line) ∧
      (line ≠ "" → line ≠ "[DONE]" →
        parseStreamLine line = handleExc (decodeData (stripDataPrefix line))) := by
  refine ⟨?_, fun h => ?_, fun h1 h2 => ?_⟩
  · obtain ⟨d⟩ := payload
    unfold stripDataPrefix
    rw [String.data_append]
    rw [if_pos (by simp [List.isPrefixOf_iff_prefix])]
    show String.mk (("data: ".data ++ d).drop 6) = ⟨d⟩
    rw [show (6 : Nat) = "data: ".data.length from rfl, List.drop_left]
  · simp [stripDataPrefix, h]
  · unfold parseStreamLine parseStreamLineBody
    rw [if_neg (by simp [h1, h2])]

/-- C7, witness at a prefixed and an unprefixed concrete line. -/
theorem c7_witness :
    stripDataPrefix ("data: " ++ "\x7b\x7d") = "\x7b\x7d" ∧
      stripDataPrefix "bare-line" = "bare-line" ∧
      parseStreamLine "bare-line" = handleExc (decodeData (stripDataPrefix "bare-line")) :=
  ⟨(c7_prefix_stripping "\x7b\x7d" "bare-line").1,
    (c7_prefix_stripping "\x7b\x7d" "bare-line").2.1 (by decide),
    (c7_prefix_stripping "\x7b\x7d" "bare-line").2.2 (by decide) (by decide)⟩

/-! Claim C8. -/

/-- C8: re-selecting the currently-selected agent with `verify` is an
idempotent no-op when that agent is among the loaded metadata's keys: the
call succeeds and returns the session state unchanged — same
`selected_agent`, same metadata. -/
theorem c8_reselect_current_agent_noop (fetch : Except AgentClientError ServiceMetadata)
    (s : SessionState) (md : ServiceMetadata) (k : String)
    (hinfo : s.info = some md) (hagent : s.agent = some k)
    (hmem : (agentKeys md).contains k = true) :
    updateAgent fetch s k true = .ok s := by
  obtain ⟨info, agent⟩ := s
  simp only at hinfo hagent
  subst hinfo hagent
  simp [updateAgent, hmem]
  simpa using hmem

/-- C8, witness at a concrete session already selecting `"a"` from the
agent set `"a"`, `"b"`. -/
theorem c8_witness :
    updateAgent (.error ⟨"unused"⟩) ⟨some ⟨[⟨"a"⟩, ⟨"b"⟩], "a"⟩, some "a"⟩ "a" true =
      .ok ⟨some ⟨[⟨"a"⟩, ⟨"b"⟩], "a"⟩, some "a"⟩ :=
  c8_reselect_current_agent_noop (.error ⟨"unused"⟩)
    ⟨some ⟨[⟨"a"⟩, ⟨"b"⟩], "a"⟩, some "a"⟩ ⟨[⟨"a"⟩, ⟨"b"⟩], "a"⟩ "a" rfl rfl rfl

/-! Claim C9. -/

/-- C9: when a line past the guard parses as valid JSON that is not an
object, the decoder does not pass the value through: reading the `type`
discriminator raises `AttributeError`, the catch-all handler converts the
line into an error-kind StreamEvent whose content is the generic
`"Unexpected error: "` message naming the Python type. -/
theorem c9_non_object_payload_unexpected_error (line : String) (v : Json)
    (h1 : line ≠ "") (h2 : line ≠ "[DONE]")
    (hj : jsonLoads (stripDataPrefix line) = .ok v) (hv : isObj v = false) :
    parseStreamLine line =
      some (errorEvent
        ("Unexpected error: '" ++ pyTypeName v ++ "' object has no attribute 'get'")) := by
  unfold parseStreamLine parseStreamLineBody
  rw [if_neg (by simp [h1, h2])]
  unfold decodeData
  rw [hj]
  cases v with
  | obj fields => simp [isObj] at hv
  | null => rfl
  | bool b => rfl
  | num lexeme isFloat => rfl
  | str s => rfl
  | arr elems => rfl

/-- C9, witness: `"data: [1]"` parses to a JSON array and is converted to
the unexpected-error event naming the Python list type. -/
theorem c9_witness :
    parseStreamLine "data: [1]" =
      some (errorEvent
        ("Unexpected error: '" ++ pyTypeName (.arr [.num "1" false]) ++
          "' object has no attribute 'get'")) :=
  c9_non_object_payload_unexpected_error "data: [1]" (.arr [.num "1" false])
    (by decide) (by decide) rfl rfl

/-! Claim C10. -/

/-- C10: `update_agent` with `verify=False` succeeds for every key and
every session state: no metadata fetch is consulted (the conclusion holds
for every fetch outcome, including a failing one), no membership check is
made, the selected agent becomes the key even when absent from the
metadata's agent set, and the metadata field is unchanged. -/
theorem c10_no_verify_sets_agent_unconditionally
    (fetch : Except AgentClientError ServiceMetadata) (s : SessionState)
    (key : String) :
    updateAgent fetch s key false = .ok ⟨s.info, some key⟩ := rfl

end AgentClientSpec
